import Mathlib

/-!
Verification of the allocations pallet (src/pallets/allocations/src/lib.rs).

The pallet keeps two storage items, `Oracles : Vec<AccountId>` and
`CoinsLeft : Balance`, and exposes one dispatchable, `submit_reward`,
plus the `ChangeMembers` / `InitializeMembers` hooks.  We embed the
runtime state shallowly: account ids, balances and hashes become `Nat`,
the storage together with the external collaborators observable in the
claims (the recipients' free balances touched by
`Currency::deposit_creating`, the imbalances handed to the
`Reward : OnUnbalanced` hook, and the deposited events) become fields of
one state record.  A dispatch returns `Except DispatchError AllocState`;
a dispatch that returns an error leaves the pre-state untouched, which is
exactly the frame/rollback semantics `assert_noop` relies on in the
pallet's own tests.
-/

namespace Allocations

abbrev AccountId := Nat
abbrev Balance := Nat
abbrev Hash := Nat

/-- Errors declared by the pallet in `decl_error!`. -/
inductive AllocError
  | OracleAccessDenied
  | ZeroAllocation
  | TooManyCoinsToAllocate
deriving DecidableEq, Repr

/-- Dispatch-level errors: `BadOrigin` propagated by `ensure_signed`, a
module error from `decl_error!`, or a plain string error as produced by the
`&str` on the `checked_sub` line. -/
inductive DispatchError
  | badOrigin
  | moduleErr (e : AllocError)
  | strErr (msg : String)
deriving DecidableEq, Repr

/-- Origins a dispatch can carry; `ensure_signed` accepts only `signed`. -/
inductive Origin
  | signed (who : AccountId)
  | root
  | unsigned
deriving DecidableEq, Repr

/-- Events declared in `decl_event!`: `RewardAllocated(AccountId, Balance, Hash)`. -/
inductive Event
  | RewardAllocated (who : AccountId) (amount : Balance) (hash : Hash)
deriving DecidableEq, Repr

/-- The observable runtime state: the two storage items of the pallet,
together with the external collaborators the claims talk about (free
balances credited by `deposit_creating`, the log of imbalance values the
`Reward` hook received, and the event deposit log). -/
structure AllocState where
  oracles : List AccountId
  coinsLeft : Balance
  balances : AccountId → Balance
  rewardHookLog : List Balance
  events : List Event

/-- Getter `coins_left` of the `CoinsLeft` storage item. -/
def coins_left (st : AllocState) : Balance :=
  st.coinsLeft

/-- Getter `oracles` of the `Oracles` storage item. -/
def oracles (st : AllocState) : List AccountId :=
  st.oracles

/-- Embeds `system::ensure_signed`: succeeds with the signer on a signed
origin, fails with `BadOrigin` otherwise. -/
def ensure_signed : Origin → Except DispatchError AccountId
  | Origin.signed who => Except.ok who
  | Origin.root => Except.error DispatchError.badOrigin
  | Origin.unsigned => Except.error DispatchError.badOrigin

/-- Embeds `Module::is_oracle`: `Self::oracles().contains(&who)`. -/
def is_oracle (st : AllocState) (who : AccountId) : Bool :=
  (oracles st).contains who

/-- Embeds `Module::ensure_oracle`: resolve the origin with
`ensure_signed`, then require `is_oracle(sender)` or fail with
`OracleAccessDenied`. -/
def ensure_oracle (st : AllocState) (origin : Origin) : Except DispatchError Unit :=
  match ensure_signed origin with
  | Except.error e => Except.error e
  | Except.ok sender =>
      if is_oracle st sender then Except.ok ()
      else Except.error (DispatchError.moduleErr AllocError.OracleAccessDenied)

/-- Embeds `CheckedSub::checked_sub` on an unsigned balance: `some (a - b)`
when `b ≤ a`, `none` on underflow. -/
def checked_sub (a b : Balance) : Option Balance :=
  if b ≤ a then some (a - b) else none

/-- Embeds `Imbalance::zero()` for the positive imbalance, as its value. -/
def imbalance_zero : Balance := 0

/-- Embeds `Imbalance::subsume`: the merged imbalance carries the sum of
the two values. -/
def imbalance_subsume (total r : Balance) : Balance :=
  total + r

/-- Embeds `Currency::deposit_creating(&who, amount)`: returns the updated
free-balance map together with the positive imbalance of value `amount`. -/
def deposit_creating (b : AccountId → Balance) (who : AccountId) (amount : Balance) :
    (AccountId → Balance) × Balance :=
  (fun x => if x = who then b x + amount else b x, amount)

/-- Embeds `Reward::on_unbalanced`: the hook consumes the imbalance; we log
the value it received. -/
def on_unbalanced (hookLog : List Balance) (imb : Balance) : List Balance :=
  hookLog ++ [imb]

/-- Embeds the dispatchable `submit_reward`, line by line: `ensure_oracle`,
the `ZeroAllocation` and `TooManyCoinsToAllocate` guards, the
`checked_sub`-guarded write to `CoinsLeft`, `deposit_creating` plus the
imbalance bookkeeping handed to the `Reward` hook, and the
`RewardAllocated` event deposit. -/
def submit_reward (st : AllocState) (origin : Origin) (merkle_root_hash : Hash)
    (who : AccountId) (amount : Balance) : Except DispatchError AllocState :=
  match ensure_oracle st origin with
  | Except.error e => Except.error e
  | Except.ok _ =>
    if 0 < amount then
      if amount ≤ st.coinsLeft then
        match checked_sub st.coinsLeft amount with
        | none => Except.error (DispatchError.strErr "Underflow computing coins left")
        | some newCoins =>
          let st1 : AllocState := { st with coinsLeft := newCoins }
          let dep := deposit_creating st1.balances who amount
          let total_imbalance := imbalance_subsume imbalance_zero dep.2
          let st2 : AllocState := { st1 with balances := dep.1 }
          let st3 : AllocState :=
            { st2 with rewardHookLog := on_unbalanced st2.rewardHookLog total_imbalance }
          Except.ok
            { st3 with
              events := st3.events ++ [Event.RewardAllocated who amount merkle_root_hash] }
      else Except.error (DispatchError.moduleErr AllocError.TooManyCoinsToAllocate)
    else Except.error (DispatchError.moduleErr AllocError.ZeroAllocation)

/-- Embeds `ChangeMembers::change_members_sorted`: ignores the incoming and
outgoing deltas and overwrites `Oracles` with `new`. -/
def change_members_sorted (st : AllocState) (_incoming _outgoing nw : List AccountId) :
    AllocState :=
  { st with oracles := nw }

/-- Embeds `InitializeMembers::initialize_members`: overwrites `Oracles`
with `ini`, unconditionally. -/
def initialize_members (st : AllocState) (ini : List AccountId) : AllocState :=
  { st with oracles := ini }

/-- One externally triggered operation of the core. -/
inductive Op
  | submitReward (origin : Origin) (hash : Hash) (who : AccountId) (amount : Balance)
  | initMembers (ini : List AccountId)
  | changeMembers (incoming outgoing nw : List AccountId)
  | queryIsOracle (who : AccountId)
  | queryCoinsLeft
deriving Repr

/-- Applies one operation to the state.  A failed dispatch is rolled back,
so it leaves the state unchanged; the read-only queries never write. -/
def applyOp (st : AllocState) (op : Op) : AllocState :=
  match op with
  | Op.submitReward origin hash who amount =>
      match submit_reward st origin hash who amount with
      | Except.ok st' => st'
      | Except.error _ => st
  | Op.initMembers ini => initialize_members st ini
  | Op.changeMembers incoming outgoing nw => change_members_sorted st incoming outgoing nw
  | Op.queryIsOracle _ => st
  | Op.queryCoinsLeft => st

/-- Runs a sequence of operations from a state. -/
def runOps (st : AllocState) (ops : List Op) : AllocState :=
  ops.foldl applyOp st

/-- Recognizes the error value produced by the failure branch of the
`checked_sub` line in `submit_reward` (the only string error in the
module). -/
def isUnderflowError : Except DispatchError AllocState → Bool
  | Except.error (DispatchError.strErr _) => true
  | _ => false

/-- Example state used by the concrete witnesses: genesis budget 200 and
the oracle set of the pallet's own test harness. -/
def exState : AllocState :=
  { oracles := [0]
    coinsLeft := 200
    balances := fun _ => 0
    rewardHookLog := []
    events := [] }

/-- Example state with the same oracle set but an exhausted budget. -/
def exStateZero : AllocState :=
  { exState with coinsLeft := 0 }

/-- Characterization of the post-state of a successful `submit_reward`:
budget debited by `amount`, recipient credited by `amount`, one imbalance
of value `amount` handed to the reward hook, one `RewardAllocated` event
appended. -/
def success_state (st : AllocState) (who : AccountId) (amount : Balance) (hash : Hash) :
    AllocState :=
  { oracles := st.oracles
    coinsLeft := st.coinsLeft - amount
    balances := fun x => if x = who then st.balances x + amount else st.balances x
    rewardHookLog := st.rewardHookLog ++ [amount]
    events := st.events ++ [Event.RewardAllocated who amount hash] }

lemma ensure_oracle_signed_ok (st : AllocState) (sender : AccountId)
    (hor : is_oracle st sender = true) :
    ensure_oracle st (Origin.signed sender) = Except.ok () := by
  simp [ensure_oracle, ensure_signed, hor]

lemma ensure_oracle_signed_err (st : AllocState) (sender : AccountId)
    (hor : is_oracle st sender = false) :
    ensure_oracle st (Origin.signed sender) =
      Except.error (DispatchError.moduleErr AllocError.OracleAccessDenied) := by
  simp [ensure_oracle, ensure_signed, hor]

lemma checked_sub_of_le {a b : Balance} (hab : b ≤ a) : checked_sub a b = some (a - b) := by
  simp [checked_sub, hab]

lemma submit_reward_ok_eq (st : AllocState) (sender : AccountId) (hash : Hash)
    (who : AccountId) (amount : Balance) (hor : is_oracle st sender = true)
    (h0 : 0 < amount) (hb : amount ≤ st.coinsLeft) :
    submit_reward st (Origin.signed sender) hash who amount =
      Except.ok (success_state st who amount hash) := by
  simp [submit_reward, ensure_oracle_signed_ok st sender hor, h0, hb,
    checked_sub_of_le hb, success_state, deposit_creating, imbalance_subsume,
    imbalance_zero, on_unbalanced]

lemma submit_reward_notOracle_err (st : AllocState) (sender : AccountId) (hash : Hash)
    (who : AccountId) (amount : Balance) (hor : is_oracle st sender = false) :
    submit_reward st (Origin.signed sender) hash who amount =
      Except.error (DispatchError.moduleErr AllocError.OracleAccessDenied) := by
  simp [submit_reward, ensure_oracle_signed_err st sender hor]

lemma submit_reward_zero_err (st : AllocState) (sender : AccountId) (hash : Hash)
    (who : AccountId) (hor : is_oracle st sender = true) :
    submit_reward st (Origin.signed sender) hash who 0 =
      Except.error (DispatchError.moduleErr AllocError.ZeroAllocation) := by
  simp [submit_reward, ensure_oracle_signed_ok st sender hor]

lemma submit_reward_budget_err (st : AllocState) (sender : AccountId) (hash : Hash)
    (who : AccountId) (amount : Balance) (hor : is_oracle st sender = true)
    (hgt : st.coinsLeft < amount) :
    submit_reward st (Origin.signed sender) hash who amount =
      Except.error (DispatchError.moduleErr AllocError.TooManyCoinsToAllocate) := by
  have h0 : 0 < amount := lt_of_le_of_lt (Nat.zero_le _) hgt
  have hnb : ¬ amount ≤ st.coinsLeft := Nat.not_le.mpr hgt
  simp [submit_reward, ensure_oracle_signed_ok st sender hor, h0, hnb]

lemma submit_reward_root_err (st : AllocState) (hash : Hash) (who : AccountId)
    (amount : Balance) :
    submit_reward st Origin.root hash who amount = Except.error DispatchError.badOrigin := by
  simp [submit_reward, ensure_oracle, ensure_signed]

lemma submit_reward_unsigned_err (st : AllocState) (hash : Hash) (who : AccountId)
    (amount : Balance) :
    submit_reward st Origin.unsigned hash who amount =
      Except.error DispatchError.badOrigin := by
  simp [submit_reward, ensure_oracle, ensure_signed]

lemma submit_reward_ok_inv (st : AllocState) (o : Origin) (hash : Hash) (who : AccountId)
    (amount : Balance) (st' : AllocState)
    (hok : submit_reward st o hash who amount = Except.ok st') :
    ∃ sender, o = Origin.signed sender ∧ is_oracle st sender = true ∧
      0 < amount ∧ amount ≤ st.coinsLeft ∧ st' = success_state st who amount hash := by
  cases o with
  | signed sender =>
    cases hor : is_oracle st sender with
    | false =>
      rw [submit_reward_notOracle_err st sender hash who amount hor] at hok
      exact Except.noConfusion hok
    | true =>
      rcases Nat.eq_zero_or_pos amount with rfl | h0
      · rw [submit_reward_zero_err st sender hash who hor] at hok
        exact Except.noConfusion hok
      · rcases le_or_lt amount st.coinsLeft with hb | hgt
        · rw [submit_reward_ok_eq st sender hash who amount hor h0 hb] at hok
          exact ⟨sender, rfl, hor, h0, hb, (Except.ok.inj hok).symm⟩
        · rw [submit_reward_budget_err st sender hash who amount hor hgt] at hok
          exact Except.noConfusion hok
  | root =>
    rw [submit_reward_root_err st hash who amount] at hok
    exact Except.noConfusion hok
  | unsigned =>
    rw [submit_reward_unsigned_err st hash who amount] at hok
    exact Except.noConfusion hok

lemma applyOp_coins_le (st : AllocState) (op : Op) :
    coins_left (applyOp st op) ≤ coins_left st := by
  cases op with
  | submitReward o hash who amount =>
    cases hres : submit_reward st o hash who amount with
    | ok st' =>
      obtain ⟨sender, _, _, _, _, hst⟩ :=
        submit_reward_ok_inv st o hash who amount st' hres
      simp [applyOp, hres, coins_left, hst, success_state, Nat.sub_le]
    | error e => simp [applyOp, hres, coins_left]
  | initMembers ini => simp [applyOp, initialize_members, coins_left]
  | changeMembers inc out nw => simp [applyOp, change_members_sorted, coins_left]
  | queryIsOracle x => simp [applyOp, coins_left]
  | queryCoinsLeft => simp [applyOp, coins_left]

lemma runOps_cons (st : AllocState) (op : Op) (ops : List Op) :
    runOps st (op :: ops) = runOps (applyOp st op) ops := rfl

lemma runOps_coins_le (st : AllocState) (ops : List Op) :
    coins_left (runOps st ops) ≤ coins_left st := by
  induction ops generalizing st with
  | nil => exact le_refl _
  | cons op rest ih =>
    rw [runOps_cons]
    exact le_trans (ih (applyOp st op)) (applyOp_coins_le st op)

/-- C1: for every state in which the caller's resolved identity is in the
oracle set and `0 < amount ≤` remaining budget, `submit_reward` returns
success, the budget decreases by exactly `amount`, the recipient's external
balance increases by exactly `amount`, the reward hook receives exactly one
imbalance of value `amount`, and exactly one `RewardAllocated (who, amount,
hash)` event is appended. -/
theorem claim1_submit_reward_successful_debit (st : AllocState) (sender : AccountId)
    (hash : Hash) (who : AccountId) (amount : Balance)
    (hor : is_oracle st sender = true) (h0 : 0 < amount) (hb : amount ≤ coins_left st) :
    ∃ st', submit_reward st (Origin.signed sender) hash who amount = Except.ok st' ∧
      coins_left st' = coins_left st - amount ∧
      st'.balances who = st.balances who + amount ∧
      st'.rewardHookLog = st.rewardHookLog ++ [amount] ∧
      st'.events = st.events ++ [Event.RewardAllocated who amount hash] := by
  refine ⟨success_state st who amount hash,
    submit_reward_ok_eq st sender hash who amount hor h0 hb, rfl, ?_, rfl, rfl⟩
  simp [success_state]

/-- Witness for C1 at the state with budget 200, oracle 0: oracle 0 pays
account 2 an amount of 100 for hash 5. -/
theorem claim1_witness :
    ∃ st', submit_reward exState (Origin.signed 0) 5 2 100 = Except.ok st' ∧
      coins_left st' = coins_left exState - 100 ∧
      st'.balances 2 = exState.balances 2 + 100 ∧
      st'.rewardHookLog = exState.rewardHookLog ++ [100] ∧
      st'.events = exState.events ++ [Event.RewardAllocated 2 100 5] :=
  claim1_submit_reward_successful_debit exState 0 5 2 100 (by decide) (by decide)
    (by decide)

/-- C2: the remaining budget is a natural number (hence never negative), it
never increases under any operation or sequence of operations, the
membership operations and the read-only queries leave it exactly unchanged,
and the only operation that can change it is a `submit_reward` that
succeeds, which debits it by exactly the amount. -/
theorem claim2_budget_monotone (st : AllocState) (ops : List Op)
    (ini inc out nw : List AccountId) (x : AccountId)
    (o : Origin) (hash : Hash) (who : AccountId) (amount : Balance) :
    0 ≤ coins_left st ∧
    coins_left (runOps st ops) ≤ coins_left st ∧
    coins_left (applyOp st (Op.initMembers ini)) = coins_left st ∧
    coins_left (applyOp st (Op.changeMembers inc out nw)) = coins_left st ∧
    coins_left (applyOp st (Op.queryIsOracle x)) = coins_left st ∧
    coins_left (applyOp st Op.queryCoinsLeft) = coins_left st ∧
    (coins_left (applyOp st (Op.submitReward o hash who amount)) = coins_left st ∨
      (∃ st', submit_reward st o hash who amount = Except.ok st' ∧
        applyOp st (Op.submitReward o hash who amount) = st' ∧
        0 < amount ∧ amount ≤ coins_left st ∧
        coins_left st' = coins_left st - amount)) := by
  refine ⟨Nat.zero_le _, runOps_coins_le st ops, rfl, rfl, rfl, rfl, ?_⟩
  cases hres : submit_reward st o hash who amount with
  | ok st' =>
    refine Or.inr ?_
    obtain ⟨sender, _, _, h0, hb, hst⟩ :=
      submit_reward_ok_inv st o hash who amount st' hres
    exact ⟨st', rfl, by simp [applyOp, hres], h0, hb,
      by simp [coins_left, hst, success_state]⟩
  | error e =>
    exact Or.inl (by simp [applyOp, hres])

/-- C3: a signed caller whose identity is not in the oracle set gets the
error `OracleAccessDenied`, and the state is completely unchanged (so the
budget, the balances, the reward hook log and the event log all are). -/
theorem claim3_non_oracle_denied (st : AllocState) (sender : AccountId) (hash : Hash)
    (who : AccountId) (amount : Balance) (hor : is_oracle st sender = false) :
    submit_reward st (Origin.signed sender) hash who amount =
      Except.error (DispatchError.moduleErr AllocError.OracleAccessDenied) ∧
    applyOp st (Op.submitReward (Origin.signed sender) hash who amount) = st := by
  have herr := submit_reward_notOracle_err st sender hash who amount hor
  exact ⟨herr, by simp [applyOp, herr]⟩

/-- Witness for C3: the non-oracle account 1 is rejected on the example
state. -/
theorem claim3_witness :
    submit_reward exState (Origin.signed 1) 5 2 100 =
      Except.error (DispatchError.moduleErr AllocError.OracleAccessDenied) ∧
    applyOp exState (Op.submitReward (Origin.signed 1) 5 2 100) = exState :=
  claim3_non_oracle_denied exState 1 5 2 100 (by decide)

/-- C4: an oracle submitting `amount = 0` gets the error `ZeroAllocation`
and the state, in particular the remaining budget, is unchanged. -/
theorem claim4_zero_allocation (st : AllocState) (sender : AccountId) (hash : Hash)
    (who : AccountId) (hor : is_oracle st sender = true) :
    submit_reward st (Origin.signed sender) hash who 0 =
      Except.error (DispatchError.moduleErr AllocError.ZeroAllocation) ∧
    applyOp st (Op.submitReward (Origin.signed sender) hash who 0) = st := by
  have herr := submit_reward_zero_err st sender hash who hor
  exact ⟨herr, by simp [applyOp, herr]⟩

/-- Witness for C4: oracle 0 submitting amount 0 on the example state. -/
theorem claim4_witness :
    submit_reward exState (Origin.signed 0) 5 2 0 =
      Except.error (DispatchError.moduleErr AllocError.ZeroAllocation) ∧
    applyOp exState (Op.submitReward (Origin.signed 0) 5 2 0) = exState :=
  claim4_zero_allocation exState 0 5 2 (by decide)

/-- C5: an oracle submitting `amount >` remaining budget gets the error
`TooManyCoinsToAllocate` and the state, in particular the remaining budget,
is unchanged. -/
theorem claim5_budget_bound (st : AllocState) (sender : AccountId) (hash : Hash)
    (who : AccountId) (amount : Balance) (hor : is_oracle st sender = true)
    (hgt : coins_left st < amount) :
    submit_reward st (Origin.signed sender) hash who amount =
      Except.error (DispatchError.moduleErr AllocError.TooManyCoinsToAllocate) ∧
    applyOp st (Op.submitReward (Origin.signed sender) hash who amount) = st := by
  have herr := submit_reward_budget_err st sender hash who amount hor hgt
  exact ⟨herr, by simp [applyOp, herr]⟩

/-- Witness for C5: oracle 0 asking for 201 out of a budget of 200. -/
theorem claim5_witness :
    submit_reward exState (Origin.signed 0) 5 2 201 =
      Except.error (DispatchError.moduleErr AllocError.TooManyCoinsToAllocate) ∧
    applyOp exState (Op.submitReward (Origin.signed 0) 5 2 201) = exState :=
  claim5_budget_bound exState 0 5 2 201 (by decide) (by decide)

/-- C6: the checks run in the fixed order membership, positivity, budget,
before any mutation: a signed non-oracle submitting `amount = 0` gets
`OracleAccessDenied` (not `ZeroAllocation`); an oracle submitting
`amount = 0` against an exhausted budget gets `ZeroAllocation` (not
`TooManyCoinsToAllocate`); and any erroring `submit_reward` leaves the
state exactly as it was. -/
theorem claim6_check_order
    (st : AllocState) (sender : AccountId) (hash : Hash) (who : AccountId)
    (hnor : is_oracle st sender = false)
    (st2 : AllocState) (sender2 : AccountId)
    (hor2 : is_oracle st2 sender2 = true) (hz : coins_left st2 = 0)
    (st3 : AllocState) (o3 : Origin) (hash3 : Hash) (who3 : AccountId)
    (amount3 : Balance) (e : DispatchError)
    (herr : submit_reward st3 o3 hash3 who3 amount3 = Except.error e) :
    submit_reward st (Origin.signed sender) hash who 0 =
      Except.error (DispatchError.moduleErr AllocError.OracleAccessDenied) ∧
    submit_reward st2 (Origin.signed sender2) hash who 0 =
      Except.error (DispatchError.moduleErr AllocError.ZeroAllocation) ∧
    applyOp st3 (Op.submitReward o3 hash3 who3 amount3) = st3 := by
  have hz2 := hz
  exact ⟨submit_reward_notOracle_err st sender hash who 0 hnor,
    submit_reward_zero_err st2 sender2 hash who hor2, by simp [applyOp, herr]⟩

/-- Witness for C6: non-oracle 1 with amount 0, oracle 0 with amount 0 on
the exhausted-budget state, and an erroring call on the example state. -/
theorem claim6_witness :
    submit_reward exState (Origin.signed 1) 5 2 0 =
      Except.error (DispatchError.moduleErr AllocError.OracleAccessDenied) ∧
    submit_reward exStateZero (Origin.signed 0) 5 2 0 =
      Except.error (DispatchError.moduleErr AllocError.ZeroAllocation) ∧
    applyOp exState (Op.submitReward (Origin.signed 1) 5 2 100) = exState :=
  claim6_check_order exState 1 5 2 (by decide) exStateZero 0 (by decide) (by decide)
    exState (Origin.signed 1) 5 2 100
    (DispatchError.moduleErr AllocError.OracleAccessDenied)
    (submit_reward_notOracle_err exState 1 5 2 100 (by decide))

/-- C7: `change_members_sorted` overwrites the oracle set with exactly the
new full set; the incoming and outgoing deltas have no effect on the
resulting state; afterwards `is_oracle x` holds exactly for the members of
the new full set. -/
theorem claim7_change_members_overwrite (st : AllocState)
    (inc1 out1 inc2 out2 nw : List AccountId) (x : AccountId) :
    oracles (change_members_sorted st inc1 out1 nw) = nw ∧
    change_members_sorted st inc1 out1 nw = change_members_sorted st inc2 out2 nw ∧
    (is_oracle (change_members_sorted st inc1 out1 nw) x = true ↔ x ∈ nw) := by
  refine ⟨rfl, rfl, ?_⟩
  simp [is_oracle, oracles, change_members_sorted]

/-- C8: `initialize_members` overwrites the oracle set with exactly the
given set, whatever was stored before and with no guard, changing nothing
else: the budget, the balances, the hook log and the events stay as they
were. -/
theorem claim8_initialize_overwrite (st : AllocState) (ini : List AccountId) :
    initialize_members st ini =
      { oracles := ini, coinsLeft := st.coinsLeft, balances := st.balances,
        rewardHookLog := st.rewardHookLog, events := st.events } ∧
    oracles (initialize_members st ini) = ini ∧
    coins_left (initialize_members st ini) = coins_left st :=
  ⟨rfl, rfl, rfl⟩

/-- C9: the error branch of the `checked_sub` on the coins-left update (the
only string error, "Underflow computing coins left") is unreachable: no
input whatsoever makes `submit_reward` return it. -/
theorem claim9_underflow_unreachable (st : AllocState) (o : Origin) (hash : Hash)
    (who : AccountId) (amount : Balance) :
    isUnderflowError (submit_reward st o hash who amount) = false := by
  cases o with
  | signed sender =>
    cases hor : is_oracle st sender with
    | false =>
      simp [submit_reward_notOracle_err st sender hash who amount hor, isUnderflowError]
    | true =>
      rcases Nat.eq_zero_or_pos amount with rfl | h0
      · simp [submit_reward_zero_err st sender hash who hor, isUnderflowError]
      · rcases le_or_lt amount st.coinsLeft with hb | hgt
        · simp [submit_reward_ok_eq st sender hash who amount hor h0 hb, isUnderflowError]
        · simp [submit_reward_budget_err st sender hash who amount hor hgt,
            isUnderflowError]
  | root => simp [submit_reward_root_err, isUnderflowError]
  | unsigned => simp [submit_reward_unsigned_err, isUnderflowError]

/-- C10: frame property: `submit_reward` never modifies the oracle set,
whether it succeeds or fails, and the membership operations never modify
the remaining budget. -/
theorem claim10_frame (st : AllocState) (o : Origin) (hash : Hash) (who : AccountId)
    (amount : Balance) (ini inc out nw : List AccountId) :
    oracles (applyOp st (Op.submitReward o hash who amount)) = oracles st ∧
    coins_left (initialize_members st ini) = coins_left st ∧
    coins_left (change_members_sorted st inc out nw) = coins_left st := by
  refine ⟨?_, rfl, rfl⟩
  cases hres : submit_reward st o hash who amount with
  | ok st' =>
    obtain ⟨sender, _, _, _, _, hst⟩ :=
      submit_reward_ok_inv st o hash who amount st' hres
    simp [applyOp, hres, hst, success_state, oracles]
  | error e => simp [applyOp, hres]

end Allocations
